import Mathlib

/-!
Verification model of the ratatui-ractor counter application.

The program has two actors and a driving loop:
  - the View actor (`App` in `src/app.rs`) owns `AppState { counter : u8, exit : bool }`
    plus a terminal handle, and handles `Draw`, `UpdateCount`, `HandleKey` and the
    `Exit` query;
  - the Worker actor (`Counter` in `src/counter.rs`) owns an optional `BlockTask`
    (a oneshot cancellation sender plus a join handle) and, on each
    `IncrementCounter` request, drains the previous task before spawning a new
    blocking computation;
  - `main` (in `src/main.rs`) pumps input events into the View actor and performs
    the ordered shutdown.

Machine integers are embedded as `Nat` with explicit `% 256` where u8 overflow
or underflow matters (release-mode wrapping semantics).  Runtime nondeterminism
of the background task (whether the join handle is observed finished, whether
the oneshot receiver is still alive, whether awaiting succeeds) is abstracted
into an explicit `TaskEnv` record, and each handler returns the list of
externally visible actions it performed, in order, together with an `Except`
result mirroring Rust panics and `?` propagation.
-/

/-- Key codes, mirroring the crossterm `KeyCode` values the program matches on:
`Char(c)`, `Left`, `Right`, and a catch-all for every other code. -/
inductive KeyCode where
  | char (c : Char)
  | left
  | right
  | otherKey
deriving DecidableEq

/-- Key event kinds, mirroring crossterm `KeyEventKind`. -/
inductive KeyEventKind where
  | press
  | release
  | repeatKind
deriving DecidableEq

/-- A decoded key event: a code plus a kind. -/
structure KeyEvent where
  code : KeyCode
  kind : KeyEventKind
deriving DecidableEq

/-- The View actor's state from `src/app.rs` (`AppState`): the u8 counter
(embedded as `Nat`, kept below 256 by the handlers' wrapping arithmetic) and the
exit flag.  The `tui` terminal handle is pure presentation and is abstracted
into the `drawScreen` effect. -/
structure AppState where
  counter : Nat
  exit : Bool
deriving DecidableEq

/-- Externally visible actions of the View actor's handler, in program order. -/
inductive AppEffect where
  | drawScreen
  | sendSelfDraw
  | replyExit (b : Bool)
  | lookupCounter
  | sendIncrement (v : Nat)
deriving DecidableEq

/-- The View actor's message set from `src/app.rs` (`AppMessage`).  The
`Exit(RpcReplyPort<bool>)` variant is modelled as `exitQuery`; the reply is the
`replyExit` effect. -/
inductive AppMessage where
  | draw
  | updateCount (n : Nat)
  | handleKey (e : KeyEvent)
  | exitQuery
deriving DecidableEq

/-- Failure of the View actor's handler: the increment branch looks the Worker
actor up by name with `.expect("Counter???")` and sends with `.unwrap()`; both
panic when the Worker is unavailable. -/
inductive AppErr where
  | counterUnavailable
deriving DecidableEq

/-- `AppState::exit` from `src/app.rs`: sets the exit flag.  (Named `exitApp`
here because `exit` is the field's name.) -/
def AppState.exitApp (st : AppState) : AppState :=
  { st with exit := true }

/-- `AppState::decrement_counter` from `src/app.rs`: `self.counter -= 1` on a
u8, i.e. wrapping subtraction `(counter + 255) % 256` in release mode. -/
def AppState.decrement_counter (st : AppState) : AppState :=
  { st with counter := (st.counter + 255) % 256 }

/-- `AppState::handle_key_event` from `src/app.rs`: dispatches on the key code
only.  `counterAlive` abstracts whether the registry lookup of `"counter"` and
the subsequent cast succeed; when they do not, the `expect`/`unwrap` panic is
the `counterUnavailable` error. -/
def AppState.handle_key_event (st : AppState) (counterAlive : Bool) (e : KeyEvent) :
    Except AppErr (AppState × List AppEffect) :=
  match e.code with
  | .char c => if c = 'q' then .ok (st.exitApp, []) else .ok (st, [])
  | .left => .ok (st.decrement_counter, [])
  | .right =>
      if counterAlive then
        .ok (st, [AppEffect.lookupCounter, AppEffect.sendIncrement st.counter])
      else
        .error .counterUnavailable
  | .otherKey => .ok (st, [])

/-- The View actor's `handle` from `src/app.rs`: `Draw` renders under the
terminal lock (state untouched), `UpdateCount(new)` overwrites the counter and
casts `Draw` to itself, `Exit` replies with the exit flag, `HandleKey`
delegates to `handle_key_event`. -/
def App.handle (counterAlive : Bool) (msg : AppMessage) (st : AppState) :
    Except AppErr (AppState × List AppEffect) :=
  match msg with
  | .draw => .ok (st, [AppEffect.drawScreen])
  | .updateCount n => .ok ({ st with counter := n }, [AppEffect.sendSelfDraw])
  | .exitQuery => .ok (st, [AppEffect.replyExit st.exit])
  | .handleKey e => st.handle_key_event counterAlive e

/-- The Worker actor's `BlockTask` from `src/counter.rs`: the oneshot canceller
and join handle are abstracted to a task identifier; `cur` records the u8
counter value captured by the spawned closure at request time. -/
structure BlockTask where
  id : Nat
  cur : Nat
deriving DecidableEq

/-- The Worker actor's state (`CounterState`): at most one previous task. -/
structure CounterState where
  prev : Option BlockTask
deriving DecidableEq

/-- The Worker actor's message set (`CounterMessage`). -/
inductive CounterMessage where
  | incrementCounter (cur : Nat)
deriving DecidableEq

/-- Runtime environment of one drain of the previous task, abstracting the
background thread's concurrent progress:
  - `finishedAtCheck`: what `handle.is_finished()` returns;
  - `receiverGone`: whether the closure has returned (dropping the oneshot
    receiver) by the time `canceller.send(())` runs — a closure observed
    finished has necessarily returned, so `finishedAtCheck → receiverGone`
    for reachable environments, but no theorem below needs that constraint;
  - `awaitOk`: whether `handle.await??` succeeds (false covers both a join
    error and the task's own `Err` result). -/
structure TaskEnv where
  finishedAtCheck : Bool
  receiverGone : Bool
  awaitOk : Bool
deriving DecidableEq

/-- Failures of the Worker actor's handler and stop hook. -/
inductive HandlerErr where
  | cancelSendPanic
  | joinOrTaskFailure
  | appUnavailable
deriving DecidableEq

/-- Externally visible actions of the Worker actor, in program order. -/
inductive CEvent where
  | cancelSignal (id : Nat)
  | awaitTask (id : Nat)
  | lookupApp
  | spawnTask (id : Nat) (cur : Nat)
deriving DecidableEq

/-- The drain step shared by `Counter::handle` and `Counter::post_stop` in
`src/counter.rs`:

    if !handle.is_finished() { canceller.send(()).unwrap(); }
    handle.await??;

If `is_finished()` observed true, no signal is sent and the handle is awaited.
Otherwise the signal is sent: when the receiver is still alive the send
succeeds and the handle is then awaited; when the closure returned in the
window between the check and the send, `send` returns `Err` and the `unwrap`
panics (`cancelSendPanic`) before any await. -/
def drainPrev (env : TaskEnv) (t : BlockTask) : List CEvent × Except HandlerErr Unit :=
  if env.finishedAtCheck then
    ([CEvent.awaitTask t.id],
     if env.awaitOk then .ok () else .error .joinOrTaskFailure)
  else if env.receiverGone then
    ([], .error .cancelSendPanic)
  else
    ([CEvent.cancelSignal t.id, CEvent.awaitTask t.id],
     if env.awaitOk then .ok () else .error .joinOrTaskFailure)

/-- The Worker actor's `handle` from `src/counter.rs`: take and drain the
previous task if any, then look up the View actor (`.expect("App??")` panics
when missing, modelled by `appRegistered = false`), spawn the blocking closure
(fresh task id `newId`, capturing the request's counter value), and store it as
the new `prev`. -/
def Counter.handle (env : TaskEnv) (appRegistered : Bool) (msg : CounterMessage)
    (st : CounterState) (newId : Nat) : List CEvent × Except HandlerErr CounterState :=
  let dr : List CEvent × Except HandlerErr Unit :=
    match st.prev with
    | some t => drainPrev env t
    | none => ([], .ok ())
  match dr.2 with
  | .error e => (dr.1, .error e)
  | .ok () =>
      match msg with
      | .incrementCounter cur =>
          if appRegistered then
            (dr.1 ++ [CEvent.lookupApp, CEvent.spawnTask newId cur],
             .ok { prev := some { id := newId, cur := cur } })
          else
            (dr.1, .error .appUnavailable)

/-- The Worker actor's `post_stop` from `src/counter.rs`: take and drain the
previous task, leaving no stored task. -/
def Counter.post_stop (env : TaskEnv) (st : CounterState) :
    List CEvent × Except HandlerErr CounterState :=
  match st.prev with
  | none => ([], .ok { prev := none })
  | some t =>
      let dr := drainPrev env t
      (dr.1, dr.2.map fun _ => { prev := none })

/-- Observable steps of the spawned blocking closure. -/
inductive TEvent where
  | tick (i : Nat)
  | sendUpdate (v : Nat)
deriving DecidableEq

/-- How the spawned closure terminates: returned `Ok(())` after observing
cancellation, returned `Ok(())` after delivering the update, or returned the
`Err` of a failed cast to the View actor. -/
inductive TaskOutcome where
  | cancelled
  | completed
  | sendFailed
deriving DecidableEq

/-- The closure's `for _ in 0..10` loop: each iteration sleeps one tick, then
polls the oneshot receiver with `try_recv()`.  `cancelAt i` is whether that
poll at iteration `i` returns `Ok(())` (the cancellation value has arrived; a
merely dropped sender yields `Err(Closed)`, which the `if let Ok(())` does not
match, so the loop continues).  Returns the tick trace and whether cancellation
was observed. -/
def compLoop (cancelAt : Nat → Bool) : Nat → Nat → List TEvent × Bool
  | _, 0 => ([], false)
  | i, fuel + 1 =>
      if cancelAt i then
        ([TEvent.tick i], true)
      else
        let r := compLoop cancelAt (i + 1) fuel
        (TEvent.tick i :: r.1, r.2)

/-- The blocking closure spawned by `Counter::handle`: run the 10-tick loop;
on cancellation return with no update sent; otherwise cast
`UpdateCount(cur + 1)` (u8 wrapping addition) to the View actor — `castOk`
abstracts whether that cast succeeds, its failure propagating as the task's
`Err` result. -/
def computationUnit (cancelAt : Nat → Bool) (castOk : Bool) (cur : Nat) :
    List TEvent × TaskOutcome :=
  let r := compLoop cancelAt 0 10
  if r.2 then
    (r.1, .cancelled)
  else if castOk then
    (r.1 ++ [TEvent.sendUpdate ((cur + 1) % 256)], .completed)
  else
    (r.1, .sendFailed)

/-- One event read from the host terminal: a key event, or anything else. -/
inductive InputEvent where
  | key (e : KeyEvent)
  | otherEvent
deriving DecidableEq

/-- Observable steps of `main` from `src/main.rs`. -/
inductive MEvent where
  | pollExit (r : Bool)
  | drawRequest
  | readInput
  | sendKey (e : KeyEvent)
  | stopApp
  | stopCounter
  | awaitAppHandle
  | awaitCounterHandle
  | restoreTerminal
deriving DecidableEq

/-- One iteration's environment: the View actor's reply to the `Exit` query
and the event returned by the blocking `event::read()`. -/
structure LoopIter where
  exitNow : Bool
  input : InputEvent
deriving DecidableEq

/-- The `match event::read()? { Event::Key(key_event) if key_event.kind ==
KeyEventKind::Press => ... }` arm of the pump loop: only a key event whose
kind is a press is forwarded as `HandleKey`. -/
def iterInputEvents : InputEvent → List MEvent
  | .key e => if e.kind = KeyEventKind.press then [MEvent.sendKey e] else []
  | .otherEvent => []

/-- The `while !call!(app, AppMessage::Exit)? { ... }` pump loop of `main`:
each pass polls the exit flag; on true it breaks at once (no draw); otherwise
it casts `Draw`, blocks on `event::read()`, and forwards press key events.
Returns the trace and whether the loop exited via the flag (rather than
exhausting the supplied iterations). -/
def pump : List LoopIter → List MEvent × Bool
  | [] => ([], false)
  | it :: rest =>
      if it.exitNow then
        ([MEvent.pollExit true], true)
      else
        let r := pump rest
        (MEvent.pollExit false :: MEvent.drawRequest :: MEvent.readInput ::
           (iterInputEvents it.input ++ r.1), r.2)

/-- The shutdown tail of `main`: `app.stop(None); counter.stop(None);
app_handle.await?; counter_handle.await?; ratatui::restore();`. -/
def shutdownSeq : List MEvent :=
  [MEvent.stopApp, MEvent.stopCounter, MEvent.awaitAppHandle,
   MEvent.awaitCounterHandle, MEvent.restoreTerminal]

/-- `main` from `src/main.rs` after actor spawn: the pump loop followed, when
the exit flag was observed, by the shutdown sequence.  (When the supplied
iterations never report exit, the real loop is still blocked inside them, so
no shutdown trace is produced.) -/
def runMain (iters : List LoopIter) : List MEvent :=
  let r := pump iters
  if r.2 then r.1 ++ shutdownSeq else r.1

/-! ## Helper lemmas -/

/-- Every successful View-actor handler run preserves a true exit flag: no
message variant writes `exit := false`. -/
theorem app_handle_exit_monotone (ca : Bool) (msg : AppMessage) (st st' : AppState)
    (effs : List AppEffect) (hok : App.handle ca msg st = .ok (st', effs))
    (hexit : st.exit = true) : st'.exit = true := by
  cases msg with
  | draw =>
      simp only [App.handle, Except.ok.injEq, Prod.mk.injEq] at hok
      rw [← hok.1]; exact hexit
  | updateCount n =>
      simp only [App.handle, Except.ok.injEq, Prod.mk.injEq] at hok
      rw [← hok.1]; exact hexit
  | exitQuery =>
      simp only [App.handle, Except.ok.injEq, Prod.mk.injEq] at hok
      rw [← hok.1]; exact hexit
  | handleKey e =>
      obtain ⟨code, kind⟩ := e
      cases code with
      | char c =>
          simp only [App.handle, AppState.handle_key_event] at hok
          by_cases hc : c = 'q'
          · subst hc
            rw [if_pos rfl] at hok
            simp only [Except.ok.injEq, Prod.mk.injEq] at hok
            rw [← hok.1]; rfl
          · rw [if_neg hc] at hok
            simp only [Except.ok.injEq, Prod.mk.injEq] at hok
            rw [← hok.1]; exact hexit
      | left =>
          simp only [App.handle, AppState.handle_key_event, Except.ok.injEq,
            Prod.mk.injEq] at hok
          rw [← hok.1]; exact hexit
      | right =>
          simp only [App.handle, AppState.handle_key_event] at hok
          cases ca with
          | false => simp at hok
          | true =>
              rw [if_pos rfl] at hok
              simp only [Except.ok.injEq, Prod.mk.injEq] at hok
              rw [← hok.1]; exact hexit
      | otherKey =>
          simp only [App.handle, AppState.handle_key_event, Except.ok.injEq,
            Prod.mk.injEq] at hok
          rw [← hok.1]; exact hexit

/-- A `HandleKey` forwarded by the pump loop always carries a press event. -/
theorem iterInputEvents_sendKey (ev : InputEvent) (e : KeyEvent)
    (h : MEvent.sendKey e ∈ iterInputEvents ev) : e.kind = KeyEventKind.press := by
  cases ev with
  | otherEvent => simp [iterInputEvents] at h
  | key f =>
      by_cases hk : f.kind = KeyEventKind.press
      · simp only [iterInputEvents, if_pos hk, List.mem_singleton,
          MEvent.sendKey.injEq] at h
        rw [h]; exact hk
      · simp [iterInputEvents, hk] at h

/-- Every `sendKey` in the pump loop's trace carries a press event. -/
theorem pump_sendKey_press (iters : List LoopIter) (e : KeyEvent)
    (h : MEvent.sendKey e ∈ (pump iters).1) : e.kind = KeyEventKind.press := by
  induction iters with
  | nil => simp [pump] at h
  | cons it rest ih =>
      by_cases hx : it.exitNow
      · simp [pump, hx] at h
      · simp only [pump, hx, Bool.false_eq_true, if_neg, ite_false, List.mem_cons,
          List.mem_append] at h
        rcases h with h | h | h | h | h
        · exact absurd h (by simp)
        · exact absurd h (by simp)
        · exact absurd h (by simp)
        · exact iterInputEvents_sendKey it.input e h
        · exact ih h

/-- A pump loop that reports exit ends its trace with the one true poll. -/
theorem pump_exit_shape (iters : List LoopIter) (h : (pump iters).2 = true) :
    ∃ pre, (pump iters).1 = pre ++ [MEvent.pollExit true] := by
  induction iters with
  | nil => simp [pump] at h
  | cons it rest ih =>
      by_cases hx : it.exitNow
      · exact ⟨[], by simp [pump, hx]⟩
      · simp only [pump, hx, Bool.false_eq_true, if_neg, ite_false] at h ⊢
        obtain ⟨pre, hpre⟩ := ih h
        exact ⟨MEvent.pollExit false :: MEvent.drawRequest :: MEvent.readInput ::
          (iterInputEvents it.input ++ pre), by simp [hpre]⟩

/-! ## Claims about the View actor -/

/-- C6: For every counter value `c`, handling the decrement key (Left) with no
increment in flight yields `counter = c - 1` under u8 wrapping arithmetic
(`(c + 255) % 256`); in particular for `c = 0` the operation is defined and
wraps to 255 (the release-mode underflow result of `self.counter -= 1`) rather
than failing.  The exit flag is untouched and no effect is emitted. -/
theorem decrement_counter_wraps (ca : Bool) (st : AppState) (k : KeyEventKind)
    (h : st.counter < 256) :
    App.handle ca (.handleKey ⟨.left, k⟩) st = .ok (st.decrement_counter, []) ∧
    st.decrement_counter.counter = (st.counter + 255) % 256 ∧
    st.decrement_counter.exit = st.exit ∧
    (1 ≤ st.counter → st.decrement_counter.counter = st.counter - 1) ∧
    (st.counter = 0 → st.decrement_counter.counter = 255) := by
  refine ⟨rfl, rfl, rfl, ?_, ?_⟩
  · intro h1
    simp only [AppState.decrement_counter]
    omega
  · intro h0
    simp only [AppState.decrement_counter, h0]

/-- Witness for C6: decrementing at `counter = 0` wraps to 255. -/
theorem decrement_counter_wraps_witness :
    (0 : Nat) < 256 ∧
    App.handle true (.handleKey ⟨.left, .press⟩) ⟨0, false⟩
      = .ok ((⟨0, false⟩ : AppState).decrement_counter, []) ∧
    (⟨0, false⟩ : AppState).decrement_counter.counter = 255 := by
  have h := decrement_counter_wraps true ⟨0, false⟩ .press (by decide)
  exact ⟨by decide, h.1, h.2.2.2.2 rfl⟩

/-- C7: Handling the increment key (Right) leaves the View actor's state
(counter and exit flag) exactly unchanged; its only actions are the registry
lookup of the Worker actor and the cast of `IncrementCounter` carrying the
current counter value. -/
theorem right_key_forwards_increment (st : AppState) (k : KeyEventKind) :
    App.handle true (.handleKey ⟨.right, k⟩) st
      = .ok (st, [AppEffect.lookupCounter, AppEffect.sendIncrement st.counter]) := rfl

/-- C8: For every current state and every new value `n`, `UpdateCount(n)`
unconditionally overwrites the counter with `n` (the old value does not appear
in the result) and emits exactly one self-cast of `Draw`; the exit flag is the
old one. -/
theorem update_count_overwrites (ca : Bool) (st : AppState) (n : Nat) :
    App.handle ca (.updateCount n) st
      = .ok (⟨n, st.exit⟩, [AppEffect.sendSelfDraw]) := rfl

/-- C9: The quit key sets the exit flag, leaves the counter unchanged and
emits no effect (in particular no draw); the `Exit` query replies with the
current flag and leaves the state exactly as it was; and no successful handler
run ever resets a true exit flag to false. -/
theorem quit_sets_exit_and_query_pure (ca : Bool) (st : AppState) (k : KeyEventKind) :
    App.handle ca (.handleKey ⟨.char 'q', k⟩) st = .ok (st.exitApp, []) ∧
    st.exitApp.counter = st.counter ∧
    st.exitApp.exit = true ∧
    App.handle ca .exitQuery st = .ok (st, [AppEffect.replyExit st.exit]) ∧
    (∀ msg st' effs, App.handle ca msg st = .ok (st', effs) →
        st.exit = true → st'.exit = true) := by
  refine ⟨?_, rfl, rfl, rfl, fun msg st' effs hok hex => app_handle_exit_monotone ca msg st st' effs hok hex⟩
  simp [App.handle, AppState.handle_key_event]

/-- Witness for C9 at concrete states: quitting from `⟨5, false⟩` yields
`⟨5, true⟩` with no effects, and a handler run from an exited state keeps the
flag true. -/
theorem quit_sets_exit_witness :
    App.handle true (.handleKey ⟨.char 'q', .press⟩) ⟨5, false⟩ = .ok (⟨5, true⟩, []) ∧
    (⟨5, true⟩ : AppState).exit = true := by
  have h := quit_sets_exit_and_query_pure true ⟨5, false⟩ KeyEventKind.press
  have h2 := quit_sets_exit_and_query_pure true ⟨5, true⟩ KeyEventKind.press
  exact ⟨h.1, h2.2.2.2.2 .draw ⟨5, true⟩ [AppEffect.drawScreen] rfl rfl⟩

/-- C10: The View actor's key handler never inspects the event kind — any two
events with the same code produce identical results — while the press-only
filter lives in the driving loop: every `HandleKey` the loop forwards carries
a press event. -/
theorem handle_key_ignores_kind :
    (∀ (st : AppState) (ca : Bool) (code : KeyCode) (k₁ k₂ : KeyEventKind),
        st.handle_key_event ca ⟨code, k₁⟩ = st.handle_key_event ca ⟨code, k₂⟩) ∧
    (∀ (iters : List LoopIter) (e : KeyEvent),
        MEvent.sendKey e ∈ runMain iters → e.kind = KeyEventKind.press) := by
  constructor
  · intro st ca code k₁ k₂; rfl
  · intro iters e h
    simp only [runMain] at h
    by_cases hx : (pump iters).2
    · rw [if_pos hx, List.mem_append] at h
      rcases h with h | h
      · exact pump_sendKey_press iters e h
      · simp [shutdownSeq] at h
    · rw [if_neg hx] at h
      exact pump_sendKey_press iters e h

/-- Witness for C10: a release event of the Left key transitions the state the
same way as a press of Left, and a concrete loop trace forwards only press
events. -/
theorem handle_key_ignores_kind_witness :
    (⟨7, false⟩ : AppState).handle_key_event true ⟨.left, .release⟩
      = (⟨7, false⟩ : AppState).handle_key_event true ⟨.left, .press⟩ ∧
    (⟨.left, .press⟩ : KeyEvent).kind = KeyEventKind.press := by
  refine ⟨handle_key_ignores_kind.1 ⟨7, false⟩ true .left .release .press, ?_⟩
  exact handle_key_ignores_kind.2
    [⟨false, .key ⟨.left, .press⟩⟩, ⟨true, .otherEvent⟩] ⟨.left, .press⟩ (by decide)

/-! ## Claims about the Worker actor -/

/-- C1: On every request that reaches the spawn, the previous slot was fully
resolved first: a successful handler run produces the new slot (carrying the
request's value), its trace is the drain of the old task followed by the
lookup and the spawn, the drain's last action is the await of the old task,
and when the old task was observed unfinished the cancellation signal was sent
before that await.  A failed run spawns nothing.  Hence at most one
computation is in flight at a time. -/
theorem counter_handle_at_most_one_in_flight (env : TaskEnv) (t : BlockTask)
    (cur newId : Nat) :
    (∀ st', (Counter.handle env true (.incrementCounter cur) ⟨some t⟩ newId).2 = .ok st' →
        st'.prev = some ⟨newId, cur⟩ ∧
        (Counter.handle env true (.incrementCounter cur) ⟨some t⟩ newId).1
          = (drainPrev env t).1 ++ [CEvent.lookupApp, CEvent.spawnTask newId cur] ∧
        (drainPrev env t).1.getLast? = some (CEvent.awaitTask t.id) ∧
        (env.finishedAtCheck = false → CEvent.cancelSignal t.id ∈ (drainPrev env t).1)) ∧
    (∀ e, (Counter.handle env true (.incrementCounter cur) ⟨some t⟩ newId).2 = .error e →
        ∀ i c, CEvent.spawnTask i c ∉
          (Counter.handle env true (.incrementCounter cur) ⟨some t⟩ newId).1) := by
  obtain ⟨fc, rg, ao⟩ := env
  cases fc <;> cases rg <;> cases ao <;>
    simp [Counter.handle, drainPrev, List.getLast?]

/-- Witness for C1: with the old task unfinished and the receiver alive, the
handler cancels, awaits, looks up, spawns and stores the new slot. -/
theorem counter_handle_at_most_one_in_flight_witness :
    (Counter.handle ⟨false, false, true⟩ true (.incrementCounter 5) ⟨some ⟨0, 3⟩⟩ 1).2
      = .ok ⟨some ⟨1, 5⟩⟩ ∧
    (Counter.handle ⟨false, false, true⟩ true (.incrementCounter 5) ⟨some ⟨0, 3⟩⟩ 1).1
      = [CEvent.cancelSignal 0, CEvent.awaitTask 0, CEvent.lookupApp,
         CEvent.spawnTask 1 5] := by
  have h := (counter_handle_at_most_one_in_flight ⟨false, false, true⟩ ⟨0, 3⟩ 5 1).1
    ⟨some ⟨1, 5⟩⟩ rfl
  exact ⟨rfl, by rw [h.2.1]; rfl⟩

/-- C2: When the Worker actor stops with a task in its slot, `post_stop`
either awaits that task's handle before returning, or panics in the race where
the closure had already returned (receiver gone though the check saw it
unfinished) — in which case the computation had already resolved on its own,
so no background computation survives the stop.  A still-running task is
cancelled before the await, an already-finished one is just awaited, and every
successful run leaves the slot empty with the await as its last action. -/
theorem counter_post_stop_resolves_slot (env : TaskEnv) (t : BlockTask) :
    (CEvent.awaitTask t.id ∈ (Counter.post_stop env ⟨some t⟩).1 ∨
       (env.finishedAtCheck = false ∧ env.receiverGone = true)) ∧
    (env.finishedAtCheck = false → env.receiverGone = false →
       CEvent.cancelSignal t.id ∈ (Counter.post_stop env ⟨some t⟩).1) ∧
    (env.finishedAtCheck = true →
       (Counter.post_stop env ⟨some t⟩).1 = [CEvent.awaitTask t.id]) ∧
    (∀ st', (Counter.post_stop env ⟨some t⟩).2 = .ok st' →
       st'.prev = none ∧
       (Counter.post_stop env ⟨some t⟩).1.getLast? = some (CEvent.awaitTask t.id)) := by
  obtain ⟨fc, rg, ao⟩ := env
  cases fc <;> cases rg <;> cases ao <;>
    simp [Counter.post_stop, drainPrev, List.getLast?, Except.map]

/-- Witness for C2: stopping with an unfinished task cancels it, awaits it,
and leaves the slot empty. -/
theorem counter_post_stop_resolves_slot_witness :
    CEvent.awaitTask 0 ∈ (Counter.post_stop ⟨false, false, true⟩ ⟨some ⟨0, 3⟩⟩).1 ∧
    CEvent.cancelSignal 0 ∈ (Counter.post_stop ⟨false, false, true⟩ ⟨some ⟨0, 3⟩⟩).1 ∧
    (⟨none⟩ : CounterState).prev = none := by
  have h := counter_post_stop_resolves_slot ⟨false, false, true⟩ ⟨0, 3⟩
  refine ⟨?_, h.2.1 rfl rfl, (h.2.2.2 ⟨none⟩ rfl).1⟩
  rcases h.1 with h1 | h1
  · exact h1
  · exact absurd h1.2 (by decide)

/-- C3 counterexample: when the previous computation finishes between the
`is_finished()` check (which saw it unfinished) and the cancellation send (by
when the receiver is gone), `canceller.send(()).unwrap()` panics and the
handler fails — so the signal is not a no-op in exactly the race the claim
covers. -/
theorem counter_cancel_race_panics :
    Counter.handle ⟨false, true, true⟩ true (.incrementCounter 0) ⟨some ⟨0, 0⟩⟩ 1
      = ([], .error .cancelSendPanic) := rfl

/-- C3 amended: the cancellation signal is sent only when the check observed
the task unfinished; if the receiver is then still alive the send succeeds
(no failure from the signal), and if the check observed the task finished no
signal is sent at all; but when the task finishes between the check and the
send, the send's `unwrap` panics and the drain fails before awaiting. -/
theorem counter_drain_cancel_semantics (env : TaskEnv) (t : BlockTask) :
    (env.finishedAtCheck = true →
       (drainPrev env t).1 = [CEvent.awaitTask t.id] ∧
       (drainPrev env t).2 ≠ .error .cancelSendPanic) ∧
    (env.finishedAtCheck = false → env.receiverGone = false →
       (drainPrev env t).1 = [CEvent.cancelSignal t.id, CEvent.awaitTask t.id] ∧
       (drainPrev env t).2 ≠ .error .cancelSendPanic) ∧
    (env.finishedAtCheck = false → env.receiverGone = true →
       drainPrev env t = ([], .error .cancelSendPanic)) := by
  obtain ⟨fc, rg, ao⟩ := env
  cases fc <;> cases rg <;> cases ao <;> simp [drainPrev]

/-- Witness for C3's amended statement: an unfinished task with a live
receiver is cancelled then awaited, with no panic from the signal. -/
theorem counter_drain_cancel_semantics_witness :
    (drainPrev ⟨false, false, true⟩ ⟨0, 3⟩).1
      = [CEvent.cancelSignal 0, CEvent.awaitTask 0] ∧
    (drainPrev ⟨false, false, true⟩ ⟨0, 3⟩).2 ≠ .error .cancelSendPanic := by
  exact (counter_drain_cancel_semantics ⟨false, false, true⟩ ⟨0, 3⟩).2.1 rfl rfl

/-! ## Claim about the spawned computation unit -/

/-- The closure's loop trace holds nothing but tick events. -/
theorem compLoop_events_are_ticks (cancelAt : Nat → Bool) (fuel : Nat) :
    ∀ (i : Nat) (e : TEvent), e ∈ (compLoop cancelAt i fuel).1 →
      ∃ j, e = TEvent.tick j := by
  induction fuel with
  | zero => intro i e h; simp [compLoop] at h
  | succ n ih =>
      intro i e h
      by_cases hc : cancelAt i
      · simp [compLoop, hc] at h
        exact ⟨i, h⟩
      · simp only [compLoop, hc, Bool.false_eq_true, if_false, List.mem_cons] at h
        rcases h with h | h
        · exact ⟨i, h⟩
        · exact ih (i + 1) e h

/-- A loop that reports cancellation observed the signal at some iteration in
its window. -/
theorem compLoop_cancelled (cancelAt : Nat → Bool) (fuel : Nat) :
    ∀ i : Nat, (compLoop cancelAt i fuel).2 = true →
      ∃ j, i ≤ j ∧ j < i + fuel ∧ cancelAt j = true := by
  induction fuel with
  | zero => intro i h; simp [compLoop] at h
  | succ n ih =>
      intro i h
      by_cases hc : cancelAt i
      · exact ⟨i, le_refl i, by omega, hc⟩
      · simp only [compLoop, hc, Bool.false_eq_true, if_false] at h
        obtain ⟨j, h1, h2, h3⟩ := ih (i + 1) h
        exact ⟨j, by omega, by omega, h3⟩

/-- A loop whose window never carries the signal runs all its ticks and
reports no cancellation. -/
theorem compLoop_no_cancel (cancelAt : Nat → Bool) (fuel : Nat) :
    ∀ i : Nat, (∀ j, i ≤ j → j < i + fuel → cancelAt j = false) →
      compLoop cancelAt i fuel = ((List.range' i fuel).map TEvent.tick, false) := by
  induction fuel with
  | zero => intro i _; simp [compLoop, List.range']
  | succ n ih =>
      intro i h
      have hc : cancelAt i = false := h i (le_refl i) (by omega)
      have hr := ih (i + 1) (fun j hj1 hj2 => h j (by omega) (by omega))
      simp [compLoop, hc, hr, List.range']

/-- C4: The spawned unit either observes cancellation at a tick boundary and
returns without sending anything, or — when no cancellation arrives in its ten
polls and the cast succeeds — consumes all ten ticks and sends exactly one
`UpdateCount` carrying `(cur + 1) % 256` (u8 wrapping increment of the counter
value captured at request time); any update it ever sends carries exactly that
value. -/
theorem computation_unit_cancel_or_complete (cancelAt : Nat → Bool)
    (castOk : Bool) (cur : Nat) :
    ((computationUnit cancelAt castOk cur).2 = .cancelled →
       (∃ j, j < 10 ∧ cancelAt j = true) ∧
       ∀ v, TEvent.sendUpdate v ∉ (computationUnit cancelAt castOk cur).1) ∧
    ((∀ j, j < 10 → cancelAt j = false) → castOk = true →
       computationUnit cancelAt castOk cur
         = ((List.range' 0 10).map TEvent.tick ++
              [TEvent.sendUpdate ((cur + 1) % 256)], .completed)) ∧
    (∀ v, TEvent.sendUpdate v ∈ (computationUnit cancelAt castOk cur).1 →
       v = (cur + 1) % 256) := by
  by_cases hflag : (compLoop cancelAt 0 10).2 = true
  · refine ⟨fun _ => ⟨?_, ?_⟩, fun hno _ => ?_, fun v hv => ?_⟩
    · obtain ⟨j, _, hj2, hj3⟩ := compLoop_cancelled cancelAt 10 0 hflag
      exact ⟨j, by omega, hj3⟩
    · intro v hv
      simp only [computationUnit, hflag, if_true] at hv
      obtain ⟨j, hj⟩ := compLoop_events_are_ticks cancelAt 10 0 _ hv
      simp at hj
    · obtain ⟨j, hj1, hj2, hj3⟩ := compLoop_cancelled cancelAt 10 0 hflag
      rw [hno j (by omega)] at hj3
      simp at hj3
    · simp only [computationUnit, hflag, if_true] at hv
      obtain ⟨j, hj⟩ := compLoop_events_are_ticks cancelAt 10 0 _ hv
      simp at hj
  · refine ⟨fun hcanc => ?_, fun hno hcast => ?_, fun v hv => ?_⟩
    · simp only [computationUnit, hflag, if_false] at hcanc
      cases castOk <;> simp at hcanc
    · have hr := compLoop_no_cancel cancelAt 10 0 (fun j _ hj2 => hno j (by omega))
      simp [computationUnit, hr, hcast]
    · cases castOk with
      | false =>
          have hx : computationUnit cancelAt false cur
              = ((compLoop cancelAt 0 10).1, .sendFailed) := by
            simp [computationUnit, hflag]
          rw [hx] at hv
          obtain ⟨j, hj⟩ := compLoop_events_are_ticks cancelAt 10 0 _ hv
          simp at hj
      | true =>
          have hx : computationUnit cancelAt true cur
              = ((compLoop cancelAt 0 10).1 ++
                  [TEvent.sendUpdate ((cur + 1) % 256)], .completed) := by
            simp [computationUnit, hflag]
          rw [hx, List.mem_append, List.mem_singleton] at hv
          rcases hv with hv | hv
          · obtain ⟨j, hj⟩ := compLoop_events_are_ticks cancelAt 10 0 _ hv
            simp at hj
          · injection hv

/-- Witness for C4: with no cancellation and a working cast, the unit runs ten
ticks and sends `UpdateCount(4)` for the request-time value 3. -/
theorem computation_unit_cancel_or_complete_witness :
    (∀ j, j < 10 → (fun _ => false : Nat → Bool) j = false) ∧
    computationUnit (fun _ => false) true 3
      = ((List.range' 0 10).map TEvent.tick ++ [TEvent.sendUpdate 4],
         TaskOutcome.completed) := by
  have h := (computation_unit_cancel_or_complete (fun _ => false) true 3).2.1
    (fun j _ => rfl) rfl
  exact ⟨fun j _ => rfl, h⟩

/-! ## Claim about the driving loop -/

/-- C5: Once a `ShouldExit` poll returns true, the loop breaks with no further
draw: the whole trace is the earlier iterations, the one true poll, and then —
in this order and with nothing interleaved — stop the View actor, stop the
Worker actor, await the View actor's handle, await the Worker actor's handle,
and only then restore the terminal. -/
theorem main_shutdown_sequence (iters : List LoopIter)
    (h : (pump iters).2 = true) :
    ∃ pre, runMain iters = pre ++ MEvent.pollExit true ::
      [MEvent.stopApp, MEvent.stopCounter, MEvent.awaitAppHandle,
       MEvent.awaitCounterHandle, MEvent.restoreTerminal] := by
  obtain ⟨pre, hpre⟩ := pump_exit_shape iters h
  refine ⟨pre, ?_⟩
  simp [runMain, h, hpre, shutdownSeq]

/-- Witness for C5: a loop whose first poll reports exit produces exactly the
poll followed by the shutdown sequence. -/
theorem main_shutdown_sequence_witness :
    (pump [(⟨true, .otherEvent⟩ : LoopIter)]).2 = true ∧
    ∃ pre, runMain [(⟨true, .otherEvent⟩ : LoopIter)] = pre ++ MEvent.pollExit true ::
      [MEvent.stopApp, MEvent.stopCounter, MEvent.awaitAppHandle,
       MEvent.awaitCounterHandle, MEvent.restoreTerminal] :=
  ⟨rfl, main_shutdown_sequence [⟨true, .otherEvent⟩] rfl⟩
